import Mathlib

/-!
Verification development for the StacksPay Python SDK (`sbtc_gateway`).

The repository provides a gateway client (`client.py`), typed data objects
(`types.py`), a webhook signature-verification and event-parsing utility,
resource APIs over an HTTP transport, and an exception taxonomy.  The files
`client.py` and `types.py` are embedded directly from source.  The modules
`webhooks.py`, `exceptions.py`, `payments.py` and `merchant.py` are referenced
by `client.py` and `__init__.py` but their bodies are not part of the source
tree; those parts are modelled from the specification, as indicated on each
definition.

Machine integers do not occur in the Python source (Python integers are
unbounded); the 32-bit arithmetic below belongs to the SHA-256 algorithm
itself and is made explicit with `% 2^32`.
-/

namespace StacksPay

/-! ## Bytes and 32-bit words -/

/-- Truncation to a 32-bit word. -/
def w32 (n : Nat) : Nat := n % 4294967296

/-- Right rotation of a 32-bit word by `n` bits. -/
def rotr32 (n x : Nat) : Nat := w32 ((x >>> n) ||| (x <<< (32 - n)))

/-- The `k` big-endian bytes of `n` (most significant first). -/
def beBytes : Nat → Nat → List Nat
  | 0, _ => []
  | k + 1, n => ((n >>> (8 * k)) % 256) :: beBytes k n

/-! ## SHA-256 (Modelled from the spec: `webhooks.py` is absent from the
source tree; §4.1 specifies HMAC SHA-256 with a hex-encoded digest, so the
standard SHA-256 algorithm, FIPS 180-4, is embedded here.) -/

def ch32 (x y z : Nat) : Nat := (x &&& y) ^^^ ((x ^^^ 4294967295) &&& z)

def maj32 (x y z : Nat) : Nat := (x &&& y) ^^^ (x &&& z) ^^^ (y &&& z)

def bigSigma0 (x : Nat) : Nat := rotr32 2 x ^^^ rotr32 13 x ^^^ rotr32 22 x

def bigSigma1 (x : Nat) : Nat := rotr32 6 x ^^^ rotr32 11 x ^^^ rotr32 25 x

def smallSigma0 (x : Nat) : Nat := rotr32 7 x ^^^ rotr32 18 x ^^^ (x >>> 3)

def smallSigma1 (x : Nat) : Nat := rotr32 17 x ^^^ rotr32 19 x ^^^ (x >>> 10)

/-- The 64 SHA-256 round constants (FIPS 180-4 §4.2.2, in decimal). -/
def K256 : List Nat :=
  [1116352408, 1899447441, 3049323471, 3921009573, 961987163,
   1508970993, 2453635748, 2870763221, 3624381080, 310598401,
   607225278, 1426881987, 1925078388, 2162078206, 2614888103,
   3248222580, 3835390401, 4022224774, 264347078, 604807628,
   770255983, 1249150122, 1555081692, 1996064986, 2554220882,
   2821834349, 2952996808, 3210313671, 3336571891, 3584528711,
   113926993, 338241895, 666307205, 773529912, 1294757372,
   1396182291, 1695183700, 1986661051, 2177026350, 2456956037,
   2730485921, 2820302411, 3259730800, 3345764771, 3516065817,
   3600352804, 4094571909, 275423344, 430227734, 506948616,
   659060556, 883997877, 958139571, 1322822218, 1537002063,
   1747873779, 1955562222, 2024104815, 2227730452, 2361852424,
   2428436474, 2756734187, 3204031479, 3329325298]

/-- The SHA-256 working state: eight 32-bit words. -/
structure H8 where
  a : Nat
  b : Nat
  c : Nat
  d : Nat
  e : Nat
  f : Nat
  g : Nat
  h : Nat

/-- The SHA-256 initial hash value (FIPS 180-4 §5.3.3, in decimal). -/
def initH : H8 :=
  ⟨1779033703, 3144134277, 1013904242, 2773480762,
   1359893119, 2600822924, 528734635, 1541459225⟩

/-- SHA-256 padding: append `0x80`, zero bytes to 56 mod 64, then the
64-bit big-endian bit length. -/
def padMessage (msg : List Nat) : List Nat :=
  msg ++ [0x80] ++ List.replicate ((119 - msg.length % 64) % 64) 0
      ++ beBytes 8 (msg.length * 8)

/-- Group a byte list into big-endian 32-bit words. -/
def bytesToWords : List Nat → List Nat
  | b0 :: b1 :: b2 :: b3 :: rest =>
      (((b0 * 256 + b1) * 256 + b2) * 256 + b3) :: bytesToWords rest
  | _ => []

/-- Extend a message schedule by one word. -/
def scheduleStep (w : List Nat) : List Nat :=
  let t := w.length
  w ++ [w32 (smallSigma1 (w.getD (t - 2) 0) + w.getD (t - 7) 0 +
             smallSigma0 (w.getD (t - 15) 0) + w.getD (t - 16) 0)]

/-- The full 64-word SHA-256 message schedule of one block. -/
def schedule (block : List Nat) : List Nat :=
  (List.range 48).foldl (fun w _ => scheduleStep w) (bytesToWords block)

/-- One SHA-256 round: `kw` is the pair of round constant and schedule word. -/
def sha256Round (st : H8) (kw : Nat × Nat) : H8 :=
  let t1 := w32 (st.h + bigSigma1 st.e + ch32 st.e st.f st.g + kw.1 + kw.2)
  let t2 := w32 (bigSigma0 st.a + maj32 st.a st.b st.c)
  ⟨w32 (t1 + t2), st.a, st.b, st.c, w32 (st.d + t1), st.e, st.f, st.g⟩

/-- Compress one 64-byte block into the running hash state. -/
def compress (st : H8) (block : List Nat) : H8 :=
  let r := (K256.zip (schedule block)).foldl sha256Round st
  ⟨w32 (st.a + r.a), w32 (st.b + r.b), w32 (st.c + r.c), w32 (st.d + r.d),
   w32 (st.e + r.e), w32 (st.f + r.f), w32 (st.g + r.g), w32 (st.h + r.h)⟩

/-- Split a list into chunks of 64 elements. -/
def chunk64 (l : List Nat) : List (List Nat) :=
  if h : l = [] then []
  else l.take 64 :: chunk64 (l.drop 64)
termination_by l.length
decreasing_by
  simp only [List.length_drop]
  have : 0 < l.length := List.length_pos.mpr h
  omega

/-- SHA-256 of a byte list, as a list of 32 bytes. -/
def sha256 (msg : List Nat) : List Nat :=
  let fin := (chunk64 (padMessage msg)).foldl compress initH
  beBytes 4 fin.a ++ beBytes 4 fin.b ++ beBytes 4 fin.c ++ beBytes 4 fin.d ++
  beBytes 4 fin.e ++ beBytes 4 fin.f ++ beBytes 4 fin.g ++ beBytes 4 fin.h

/-! ## HMAC-SHA256 and hex encoding (Modelled from the spec: §4.1 "Computes
an HMAC (SHA-256) over the exact raw payload bytes using `secret` as key,
producing a hex-encoded digest"; RFC 2104 with block size 64.) -/

/-- HMAC key preparation: hash keys longer than the block, zero-pad to 64. -/
def blockKey (key : List Nat) : List Nat :=
  let k := if 64 < key.length then sha256 key else key
  k ++ List.replicate (64 - k.length) 0

/-- HMAC-SHA256 of `msg` under `key`, as 32 bytes. -/
def hmacSha256 (key msg : List Nat) : List Nat :=
  let k := blockKey key
  sha256 ((k.map (fun b => b ^^^ 0x5c)) ++
          sha256 ((k.map (fun b => b ^^^ 0x36)) ++ msg))

/-- The lowercase hex digit for a value below 16: `0`-`9` then `a`-`f`. -/
def hexDigitChar (n : Nat) : Char :=
  if n < 10 then Char.ofNat (48 + n) else Char.ofNat (87 + n)

/-- Hex-encode a byte list, two lowercase digits per byte. -/
def toHexChars : List Nat → List Char
  | [] => []
  | b :: bs => hexDigitChar (b / 16 % 16) :: hexDigitChar (b % 16)
                 :: toHexChars bs

/-- The hex-encoded HMAC-SHA256 digest of `payload` keyed by `secret`:
the expected webhook signature. -/
def hmacHex (payload secret : List Nat) : String :=
  String.mk (toHexChars (hmacSha256 secret payload))

/-! ## Constant-time comparison and signature verification (Modelled from
the spec: `webhooks.py` is absent; §4.1 "Compares the computed digest to
`signatureHeader` using a constant-time equality check ... never a
short-circuiting string comparison" and "Returns `false` (never throws) when
`signatureHeader` is absent, empty, malformed ... or does not match".) -/

/-- The code points of a string, the byte view the comparison runs on. -/
def strBytes (s : String) : List Nat := s.data.map Char.toNat

/-- Accumulator-style scan over two byte lists: first component ORs together
the XOR of each aligned pair (zero exactly when all pairs agree), second
component counts the loop steps taken.  The scan never exits early. -/
def ctScan : List Nat → List Nat → Nat × Nat
  | x :: xs, y :: ys =>
      let r := ctScan xs ys
      ((x ^^^ y) ||| r.1, r.2 + 1)
  | _, _ => (0, 0)

/-- Constant-time string equality: length check plus full XOR/OR scan. -/
def constant_time_compare (a b : String) : Bool :=
  (a.data.length == b.data.length) && ((ctScan (strBytes a) (strBytes b)).1 == 0)

/-- `WebhookUtils.verify_signature`, modelled from the spec (§4.1): compute
the HMAC-SHA256 hex digest of the raw payload bytes under `secret` and
compare it to the signature header in constant time; an absent header
verifies as `false`. -/
def verify_signature (payload : List Nat) (signatureHeader : Option String)
    (secret : List Nat) : Bool :=
  match signatureHeader with
  | none => false
  | some sig => constant_time_compare (hmacHex payload secret) sig

/-! ## JSON values

The shape of the structured data Python's `json.loads` produces (floats do
not occur in the webhook data model and are not modelled). -/

inductive Json where
  | null
  | bool (flag : Bool)
  | num (value : Int)
  | str (text : String)
  | arr (xs : List Json)
  | obj (pairs : List (String × Json))

/-- A timestamp value as delivered in a payload: a string or an integer,
retained as provided (spec §4.2). -/
inductive TimeVal where
  | str (s : String)
  | int (n : Int)
  deriving DecidableEq

/-! ## Data model, embedded from `src/sdk/python/src/sbtc_gateway/types.py`.
Python `Literal` annotations are not enforced at runtime, so literal-typed
fields are embedded as `String`; `Optional` fields become `Option`.  The
three payment timestamp fields are embedded as `TimeVal` because the parser
(spec §4.2) retains them as provided, string or integer. -/

structure WalletAddresses where
  bitcoin : Option String
  «stacks» : Option String
  deriving DecidableEq

structure PaymentCustomer where
  email : Option String
  name : Option String
  wallet_address : Option String
  deriving DecidableEq

structure PaymentEvent where
  status : String
  timestamp : String
  transaction_hash : Option String
  confirmations : Option Int
  deriving DecidableEq

structure Payment where
  id : String
  amount : Int
  currency : String
  status : String
  description : String
  payment_url : String
  qr_code : String
  wallet_addresses : WalletAddresses
  expires_at : TimeVal
  created_at : TimeVal
  updated_at : TimeVal
  customer : Option PaymentCustomer
  confirmations : Option Int
  transaction_hash : Option String
  metadata : Option (List (String × Json))
  timeline : Option (List PaymentEvent)

structure WebhookEventData where
  payment : Payment

structure WebhookEvent where
  id : String
  type : String
  created : Int
  data : WebhookEventData
  livemode : Bool

/-- The closed set of enumerated webhook event types (`types.py`,
`WebhookEvent.type` literals). -/
def knownEventTypes : List String :=
  ["payment.created", "payment.paid", "payment.completed",
   "payment.failed", "payment.expired"]

/-- The event-type classification: the five enumerated literals plus a
typed fallback carrying any unrecognized raw string. -/
inductive EventType where
  | created
  | paid
  | completed
  | failed
  | expired
  | unknown (raw : String)
  deriving DecidableEq

/-- Map a raw `type` string to the closed event-type set, with the
`unknown` fallback for unrecognized values (spec §4.2). -/
def classifyEventType (s : String) : EventType :=
  if s = "payment.created" then .created
  else if s = "payment.paid" then .paid
  else if s = "payment.completed" then .completed
  else if s = "payment.failed" then .failed
  else if s = "payment.expired" then .expired
  else .unknown s

/-! ## Field lookup on JSON objects -/

def lookupField : List (String × Json) → String → Option Json
  | [], _ => none
  | (k, v) :: fs, key => if k = key then some v else lookupField fs key

def jLookup (j : Json) (key : String) : Option Json :=
  match j with
  | .obj fs => lookupField fs key
  | _ => none

def getStr (j : Json) (key : String) : Option String :=
  match jLookup j key with
  | some (.str s) => some s
  | _ => none

def getInt (j : Json) (key : String) : Option Int :=
  match jLookup j key with
  | some (.num n) => some n
  | _ => none

/-- A required numeric field validated as a non-negative integer
(spec §4.2). -/
def getNonneg (j : Json) (key : String) : Option Int :=
  match jLookup j key with
  | some (.num n) => if 0 ≤ n then some n else none
  | _ => none

/-- An optional numeric field validated as non-negative when present. -/
def getOptNonneg (j : Json) (key : String) : Option (Option Int) :=
  match jLookup j key with
  | none => some none
  | some .null => some none
  | some (.num n) => if 0 ≤ n then some (some n) else none
  | _ => none

def getOptStr (j : Json) (key : String) : Option (Option String) :=
  match jLookup j key with
  | none => some none
  | some .null => some none
  | some (.str s) => some (some s)
  | _ => none

/-- A timestamp field, retained as provided: string or integer
(spec §4.2). -/
def getTime (j : Json) (key : String) : Option TimeVal :=
  match jLookup j key with
  | some (.str s) => some (.str s)
  | some (.num n) => some (.int n)
  | _ => none

def getBoolD (j : Json) (key : String) (dflt : Bool) : Bool :=
  match jLookup j key with
  | some (.bool b) => b
  | _ => dflt

/-! ## Event parsing (Modelled from the spec: `webhooks.py` is absent;
§4.2 `parse(payload) -> WebhookEvent` deserializes structured data, fails on
missing required fields `id`, `type`, `created`, `data.payment`, maps
unknown `type` values without failing, validates numeric payment fields as
non-negative integers, and retains timestamps as provided.) -/

def parseWallet (j : Json) : Option WalletAddresses :=
  (getOptStr j "bitcoin").bind fun b =>
  (getOptStr j "stacks").map fun s => ⟨b, s⟩

def parseCustomer (j : Json) : Option PaymentCustomer :=
  (getOptStr j "email").bind fun e =>
  (getOptStr j "name").bind fun n =>
  (getOptStr j "wallet_address").map fun w => ⟨e, n, w⟩

def getOptCustomer (j : Json) (key : String) : Option (Option PaymentCustomer) :=
  match jLookup j key with
  | none => some none
  | some .null => some none
  | some cj => (parseCustomer cj).map some

def getOptMeta (j : Json) (key : String) :
    Option (Option (List (String × Json))) :=
  match jLookup j key with
  | none => some none
  | some .null => some none
  | some (.obj fs) => some (some fs)
  | _ => none

def parseTimelineEvent (j : Json) : Option PaymentEvent :=
  (getStr j "status").bind fun s =>
  (getStr j "timestamp").bind fun ts =>
  (getOptStr j "transaction_hash").bind fun th =>
  (getOptNonneg j "confirmations").map fun c => ⟨s, ts, th, c⟩

def parseTimeline : List Json → Option (List PaymentEvent)
  | [] => some []
  | j :: js =>
      (parseTimelineEvent j).bind fun e =>
      (parseTimeline js).map fun es => e :: es

def getOptTimeline (j : Json) (key : String) :
    Option (Option (List PaymentEvent)) :=
  match jLookup j key with
  | none => some none
  | some .null => some none
  | some (.arr xs) => (parseTimeline xs).map some
  | _ => none

def parsePayment (j : Json) : Option Payment :=
  (getStr j "id").bind fun i =>
  (getNonneg j "amount").bind fun amount =>
  (getStr j "currency").bind fun currency =>
  (getStr j "status").bind fun status =>
  (getStr j "description").bind fun description =>
  (getStr j "payment_url").bind fun payment_url =>
  (getStr j "qr_code").bind fun qr_code =>
  (jLookup j "wallet_addresses").bind fun wj =>
  (parseWallet wj).bind fun wallet =>
  (getTime j "expires_at").bind fun expires_at =>
  (getTime j "created_at").bind fun created_at =>
  (getTime j "updated_at").bind fun updated_at =>
  (getOptCustomer j "customer").bind fun customer =>
  (getOptNonneg j "confirmations").bind fun confirmations =>
  (getOptStr j "transaction_hash").bind fun transaction_hash =>
  (getOptMeta j "metadata").bind fun metadata =>
  (getOptTimeline j "timeline").map fun timeline =>
  ⟨i, amount, currency, status, description, payment_url, qr_code, wallet,
   expires_at, created_at, updated_at, customer, confirmations,
   transaction_hash, metadata, timeline⟩

def parseEventOpt (j : Json) : Option WebhookEvent :=
  (getStr j "id").bind fun i =>
  (getStr j "type").bind fun ty =>
  (getInt j "created").bind fun created =>
  (jLookup j "data").bind fun dj =>
  (jLookup dj "payment").bind fun pj =>
  (parsePayment pj).map fun p =>
  ⟨i, ty, created, ⟨p⟩, getBoolD j "livemode" false⟩

/-! ## SDK error taxonomy (Modelled from the spec: `exceptions.py` is
absent; §7 lists `AuthenticationError`, `ValidationError`, `APIError`,
`InvalidSignatureError`, `MalformedPayloadError`, all subtypes of a single
SDK error kind carrying `message`, optional `code`, optional `details`.) -/

inductive ErrorKind where
  | authenticationError
  | validationError
  | apiError
  | invalidSignatureError
  | malformedPayloadError
  deriving DecidableEq

structure SDKError where
  kind : ErrorKind
  message : String
  code : Option String
  details : Option String
  deriving DecidableEq

def mkInvalidSignatureError : SDKError :=
  ⟨.invalidSignatureError, "Invalid webhook signature", none, none⟩

def mkMalformedPayloadError : SDKError :=
  ⟨.malformedPayloadError, "Malformed webhook payload", none, none⟩

/-- `WebhookUtils.parse_event` on structured data, modelled from the spec
(§4.2): total on JSON containing the required fields, failing with
`MalformedPayloadError` otherwise. -/
def parse_event (j : Json) : Except SDKError WebhookEvent :=
  match parseEventOpt j with
  | some e => .ok e
  | none => .error mkMalformedPayloadError

/-! ## Serialization: constructing a payload from a `WebhookEvent` -/

def timeValJson : TimeVal → Json
  | .str s => .str s
  | .int n => .num n

/-- An optional field contributes one binding when present, none when
absent. -/
def optFields (key : String) : Option Json → List (String × Json)
  | none => []
  | some v => [(key, v)]

def walletJson (w : WalletAddresses) : Json :=
  .obj (optFields "bitcoin" (w.bitcoin.map .str) ++
        optFields "stacks" (w.«stacks».map .str))

def customerJson (c : PaymentCustomer) : Json :=
  .obj (optFields "email" (c.email.map .str) ++
        optFields "name" (c.name.map .str) ++
        optFields "wallet_address" (c.wallet_address.map .str))

def timelineEventJson (e : PaymentEvent) : Json :=
  .obj ([("status", .str e.status), ("timestamp", .str e.timestamp)] ++
        optFields "transaction_hash" (e.transaction_hash.map .str) ++
        optFields "confirmations" (e.confirmations.map .num))

def paymentJson (p : Payment) : Json :=
  .obj ([("id", .str p.id), ("amount", .num p.amount),
         ("currency", .str p.currency), ("status", .str p.status),
         ("description", .str p.description),
         ("payment_url", .str p.payment_url),
         ("qr_code", .str p.qr_code),
         ("wallet_addresses", walletJson p.wallet_addresses),
         ("expires_at", timeValJson p.expires_at),
         ("created_at", timeValJson p.created_at),
         ("updated_at", timeValJson p.updated_at)] ++
        optFields "customer" (p.customer.map customerJson) ++
        optFields "confirmations" (p.confirmations.map .num) ++
        optFields "transaction_hash" (p.transaction_hash.map .str) ++
        optFields "metadata" (p.metadata.map .obj) ++
        optFields "timeline"
          (p.timeline.map fun es => .arr (es.map timelineEventJson)))

def eventJson (e : WebhookEvent) : Json :=
  .obj [("id", .str e.id), ("type", .str e.type),
        ("created", .num e.created), ("livemode", .bool e.livemode),
        ("data", .obj [("payment", paymentJson e.data.payment)])]

/-- Non-negativity of an optional integer. -/
def nonnegOpt : Option Int → Bool
  | none => true
  | some n => decide (0 ≤ n)

def PaymentEvent.wellFormed (e : PaymentEvent) : Bool :=
  nonnegOpt e.confirmations

/-- The server-side invariant on numeric payment fields (spec §3:
`amount (integer satoshis ≥0)`; §4.2: numeric fields non-negative). -/
def Payment.wellFormed (p : Payment) : Bool :=
  decide (0 ≤ p.amount) && nonnegOpt p.confirmations &&
  (match p.timeline with
   | none => true
   | some es => es.all PaymentEvent.wellFormed)

/-! ## JSON text decoding (Modelled from the spec: the Python code
deserializes the raw body with the standard `json` module, which is not
repository code; a decoder for the JSON subset the webhook data model uses
is embedded here.  Floats and `\u` escapes are outside the data model and
decode as malformed.) -/

def isWsChar (c : Char) : Bool :=
  c = ' ' || c = '\n' || c = '\t' || c = '\r'

def skipWs : List Char → List Char
  | [] => []
  | ch :: rest => if isWsChar ch then skipWs rest else ch :: rest

def isDigitChar (c : Char) : Bool := 48 ≤ c.toNat && c.toNat ≤ 57

def takeDigits : List Char → List Char × List Char
  | [] => ([], [])
  | c :: cs =>
      if isDigitChar c then
        let r := takeDigits cs
        (c :: r.1, r.2)
      else ([], c :: cs)

def digitsToNat (ds : List Char) : Nat :=
  ds.foldl (fun a c => a * 10 + (c.toNat - 48)) 0

def escChar (e : Char) : Option Char :=
  if e = '"' || e = '\\' || e = '/' then some e
  else if e = 'n' then some (Char.ofNat 10)
  else if e = 't' then some (Char.ofNat 9)
  else if e = 'r' then some (Char.ofNat 13)
  else if e = 'b' then some (Char.ofNat 8)
  else if e = 'f' then some (Char.ofNat 12)
  else none

/-- Decode the characters of a JSON string after the opening quote,
returning the content and the remaining input. -/
def pStrChars : List Char → Option (List Char × List Char)
  | [] => none
  | '"' :: cs => some ([], cs)
  | '\\' :: rest =>
      match rest with
      | [] => none
      | e :: cs =>
          (escChar e).bind fun c =>
          (pStrChars cs).map fun r => (c :: r.1, r.2)
  | c :: cs => (pStrChars cs).map fun r => (c :: r.1, r.2)

mutual

def pValue : Nat → List Char → Option (Json × List Char)
  | 0, _ => none
  | fuel + 1, cs =>
      match skipWs cs with
      | '{' :: rest => pObjBody fuel rest
      | '[' :: rest => pArrBody fuel rest
      | '"' :: rest =>
          (pStrChars rest).map fun r => (Json.str (String.mk r.1), r.2)
      | '-' :: rest =>
          match takeDigits rest with
          | ([], _) => none
          | (ds, r) => some (Json.num (-(digitsToNat ds : Int)), r)
      | 't' :: 'r' :: 'u' :: 'e' :: rest => some (Json.bool true, rest)
      | 'f' :: 'a' :: 'l' :: 's' :: 'e' :: rest => some (Json.bool false, rest)
      | 'n' :: 'u' :: 'l' :: 'l' :: rest => some (Json.null, rest)
      | c :: rest =>
          if isDigitChar c then
            some (Json.num (digitsToNat (takeDigits (c :: rest)).1),
                  (takeDigits (c :: rest)).2)
          else none
      | [] => none

def pObjBody : Nat → List Char → Option (Json × List Char)
  | 0, _ => none
  | fuel + 1, cs =>
      match skipWs cs with
      | '}' :: rest => some (Json.obj [], rest)
      | _ => pMembers fuel (skipWs cs) []

def pMembers : Nat → List Char → List (String × Json) →
    Option (Json × List Char)
  | 0, _, _ => none
  | fuel + 1, cs, acc =>
      match skipWs cs with
      | '"' :: rest =>
          (pStrChars rest).bind fun kr =>
          match skipWs kr.2 with
          | ':' :: r2 =>
              (pValue fuel r2).bind fun vr =>
              (match skipWs vr.2 with
               | ',' :: r4 => pMembers fuel r4 (acc ++ [(String.mk kr.1, vr.1)])
               | '}' :: r4 =>
                   some (Json.obj (acc ++ [(String.mk kr.1, vr.1)]), r4)
               | _ => none)
          | _ => none
      | _ => none

def pArrBody : Nat → List Char → Option (Json × List Char)
  | 0, _ => none
  | fuel + 1, cs =>
      match skipWs cs with
      | ']' :: rest => some (Json.arr [], rest)
      | _ => pItems fuel (skipWs cs) []

def pItems : Nat → List Char → List Json → Option (Json × List Char)
  | 0, _, _ => none
  | fuel + 1, cs, acc =>
      (pValue fuel cs).bind fun vr =>
      match skipWs vr.2 with
      | ',' :: r2 => pItems fuel r2 (acc ++ [vr.1])
      | ']' :: r2 => some (Json.arr (acc ++ [vr.1]), r2)
      | _ => none

end

/-- Decode raw payload bytes into a JSON value, requiring the whole input
to be consumed. -/
def json_loads (payload : List Nat) : Option Json :=
  let cs := payload.map Char.ofNat
  match pValue (cs.length + 1) cs with
  | some (j, rest) => if skipWs rest = [] then some j else none
  | none => none

/-- Event parsing from raw bytes: decode, then build the typed event;
any failure is a `MalformedPayloadError` (spec §4.2). -/
def parse_event_bytes (payload : List Nat) : Except SDKError WebhookEvent :=
  match json_loads payload with
  | none => .error mkMalformedPayloadError
  | some j => parse_event j

/-! ## Webhook dispatch (Modelled from the spec: §4.3 `handle` composes
§4.1 then §4.2, failing with `InvalidSignatureError` when verification
fails and `MalformedPayloadError` when parsing fails after a valid
signature.) -/

def handle (payload : List Nat) (signatureHeader : Option String)
    (secret : List Nat) : Except SDKError WebhookEvent :=
  if verify_signature payload signatureHeader secret then
    parse_event_bytes payload
  else
    .error mkInvalidSignatureError

/-! ## HTTP transport retry policy (Modelled from the spec:
`payments.py`/`merchant.py` and their transport are absent; §4.4 "Applies
bounded retry (configurable count) with backoff on transient failures
(timeouts, 5xx); does not retry on 4xx" and §7 "Transport-level errors
propagate unchanged to the caller after retries are exhausted".  The
attempt outcomes are an oracle `f : Nat → Outcome`; backoff delays are
real-time behaviour outside the model.) -/

inductive Outcome where
  | success (body : Json)
  | httpError (status : Nat) (err : SDKError)
  | timeout

/-- Transient failures: timeouts and 5xx responses. -/
def isRetryable : Outcome → Bool
  | .timeout => true
  | .httpError s _ => 500 ≤ s && s < 600
  | .success _ => false

def mkTimeoutError : SDKError := ⟨.apiError, "Request timed out", none, none⟩

/-- The caller-visible result of one attempt, propagated unchanged. -/
def outcomeResult : Outcome → Except SDKError Json
  | .success b => .ok b
  | .httpError _ e => .error e
  | .timeout => .error mkTimeoutError

/-- Retry loop: attempt `i`, with `rem` retries remaining.  Returns the
final result and the total number of attempts made. -/
def runRetry (f : Nat → Outcome) : Nat → Nat → Except SDKError Json × Nat
  | i, 0 => (outcomeResult (f i), i + 1)
  | i, rem + 1 =>
      if isRetryable (f i) then runRetry f (i + 1) rem
      else (outcomeResult (f i), i + 1)

/-- Transport `execute` under the configured retry count: at most
`retries` re-attempts after the first. -/
def executeT (retries : Nat) (f : Nat → Outcome) :
    Except SDKError Json × Nat :=
  runRetry f 0 retries

/-! ## Gateway client, embedded from
`src/sdk/python/src/sbtc_gateway/client.py`. -/

structure PaymentsAPI where
  api_key : String
  base_url : String
  timeout : Nat
  retries : Nat
  deriving DecidableEq

structure MerchantAPI where
  api_key : String
  base_url : String
  timeout : Nat
  retries : Nat
  deriving DecidableEq

/-- The stateless webhook utility bundle: `client.py` line 38 stores the
`WebhookUtils` class itself (a namespace of static methods, no instance
state), so the value carries no data. -/
structure WebhookUtils where
  deriving DecidableEq

/-- `WebhookUtils.verify_signature` as reached through a client's
`webhooks` attribute: a static method, so it reads nothing from the
receiver. -/
def WebhookUtils.verify_signature (_u : WebhookUtils) (payload : List Nat)
    (signatureHeader : Option String) (secret : List Nat) : Bool :=
  StacksPay.verify_signature payload signatureHeader secret

/-- `WebhookUtils.parse_event` as reached through a client's `webhooks`
attribute: a static method, so it reads nothing from the receiver. -/
def WebhookUtils.parse_event (_u : WebhookUtils) (j : Json) :
    Except SDKError WebhookEvent :=
  StacksPay.parse_event j

structure SBTCGateway where
  api_key : String
  base_url : String
  timeout : Nat
  retries : Nat
  payments : PaymentsAPI
  merchant : MerchantAPI
  webhooks : WebhookUtils

/-- The default `base_url` (`client.py` line 16). -/
def defaultBaseUrl : String := "https://api.sbtc-gateway.com"

/-- `SBTCGateway.__init__` (`client.py` lines 13-38): stores the four
configuration values, wires the identical four into `PaymentsAPI` and
`MerchantAPI`, and exposes the stateless `WebhookUtils`. -/
def SBTCGateway.create (api_key base_url : String)
    (timeout retries : Nat) : SBTCGateway :=
  ⟨api_key, base_url, timeout, retries,
   ⟨api_key, base_url, timeout, retries⟩,
   ⟨api_key, base_url, timeout, retries⟩, ⟨⟩⟩

/-- Construction with only `api_key`, using the declared defaults
(`client.py` lines 16-18): `base_url = "https://api.sbtc-gateway.com"`,
`timeout = 30`, `retries = 3`. -/
def SBTCGateway.ofApiKey (api_key : String) : SBTCGateway :=
  SBTCGateway.create api_key defaultBaseUrl 30 3

/-! ## Auxiliary definitions for the statements below -/

/-- The number of scan steps `constant_time_compare` performs on two
strings: the cost model of the comparison. -/
def ctSteps (a b : String) : Nat := (ctScan (strBytes a) (strBytes b)).2

/-- A concrete payment, the §8 scenario payment enriched with every
optional field. -/
def samplePayment : Payment :=
  ⟨"pay_1", 50000, "sbtc", "paid", "Premium subscription",
   "https://pay.example/p/pay_1", "qr-data",
   ⟨some "bc1qexample", none⟩,
   .str "2024-01-01T01:00:00Z", .int 1700000000,
   .str "2024-01-01T00:05:00Z",
   some ⟨some "customer@example.com", some "John Doe", none⟩,
   some 2, some "0xabc", some [("order_id", .str "order_123")],
   some [⟨"paid", "2024-01-01T00:05:00Z", some "0xabc", some 1⟩]⟩

/-- The §8 scenario event. -/
def sampleEvent : WebhookEvent :=
  ⟨"evt_1", "payment.paid", 1700000000, ⟨samplePayment⟩, false⟩

/-- An event whose `type` is outside the enumerated set. -/
def unknownEvent : WebhookEvent :=
  ⟨"evt_2", "payment.refunded", 1700000001, ⟨samplePayment⟩, true⟩

/-- A concrete webhook secret. -/
def sampleSecret : List Nat := strBytes "whsec_your_webhook_secret_here"

/-- A byte payload that is not well-formed JSON. -/
def badBody : List Nat := strBytes "\x7b"

/-- An attempt oracle whose first attempt fails with HTTP 404. -/
def attempts404 : Nat → Outcome :=
  fun i => if i = 0 then .httpError 404 ⟨.apiError, "Not found", none, none⟩
           else .success .null

/-- An attempt oracle that always times out. -/
def attemptsTimeout : Nat → Outcome := fun _ => .timeout

/-! # Theorems -/

/-! ## Constant-time comparison -/

theorem nat_or_eq_zero {m n : Nat} (h : (m ||| n) = 0) : m = 0 ∧ n = 0 := by
  constructor
  · apply Nat.eq_of_testBit_eq
    intro k
    have hk := congrArg (fun x => Nat.testBit x k) h
    simp only [Nat.testBit_lor, Nat.zero_testBit, Bool.or_eq_false_iff] at hk
    simp [hk.1]
  · apply Nat.eq_of_testBit_eq
    intro k
    have hk := congrArg (fun x => Nat.testBit x k) h
    simp only [Nat.testBit_lor, Nat.zero_testBit, Bool.or_eq_false_iff] at hk
    simp [hk.2]

theorem ctScan_fst_self (xs : List Nat) : (ctScan xs xs).1 = 0 := by
  induction xs with
  | nil => rfl
  | cons x xs ih => simp [ctScan, ih]

theorem ctScan_fst_zero_iff :
    ∀ {xs ys : List Nat}, xs.length = ys.length →
      ((ctScan xs ys).1 = 0 ↔ xs = ys) := by
  intro xs
  induction xs with
  | nil =>
      intro ys hl
      cases ys with
      | nil => simp [ctScan]
      | cons y ys => simp at hl
  | cons x xs ih =>
      intro ys hl
      cases ys with
      | nil => simp at hl
      | cons y ys =>
          simp only [List.length_cons, Nat.add_right_cancel_iff] at hl
          constructor
          · intro h
            simp only [ctScan] at h
            obtain ⟨hxy, hrest⟩ := nat_or_eq_zero h
            have hx : x = y := Nat.xor_eq_zero.mp hxy
            have hr : xs = ys := (ih hl).mp hrest
            rw [hx, hr]
          · intro h
            cases h
            exact ctScan_fst_self _

theorem ctScan_snd (xs ys : List Nat) :
    (ctScan xs ys).2 = min xs.length ys.length := by
  induction xs generalizing ys with
  | nil =>
      cases ys <;> simp [ctScan]
  | cons x xs ih =>
      cases ys with
      | nil => simp [ctScan]
      | cons y ys =>
          simp only [ctScan, ih, List.length_cons]
          omega

theorem char_toNat_inj {a b : Char} (h : a.toNat = b.toNat) : a = b := by
  have := congrArg Char.ofNat h
  simpa [Char.ofNat_toNat] using this

theorem strBytes_inj {a b : String} (h : strBytes a = strBytes b) : a = b := by
  have hd : a.data = b.data := by
    have : Function.Injective Char.toNat := fun x y hxy => char_toNat_inj hxy
    exact List.map_injective_iff.mpr this h
  cases a
  cases b
  simp only at hd
  rw [hd]

theorem constant_time_compare_iff (a b : String) :
    constant_time_compare a b = true ↔ a = b := by
  unfold constant_time_compare
  simp only [Bool.and_eq_true, beq_iff_eq]
  constructor
  · rintro ⟨hlen, hscan⟩
    have hbl : (strBytes a).length = (strBytes b).length := by
      simpa [strBytes] using hlen
    exact strBytes_inj ((ctScan_fst_zero_iff hbl).mp hscan)
  · rintro rfl
    exact ⟨rfl, ctScan_fst_self _⟩

/-! ## Digest shape and verification -/

theorem beBytes_length (k n : Nat) : (beBytes k n).length = k := by
  induction k generalizing n with
  | zero => rfl
  | succ k ih => simp [beBytes, ih]

theorem sha256_length (msg : List Nat) : (sha256 msg).length = 32 := by
  simp [sha256, beBytes_length]

theorem toHexChars_length (bs : List Nat) :
    (toHexChars bs).length = 2 * bs.length := by
  induction bs with
  | nil => rfl
  | cons b bs ih =>
      simp only [toHexChars, List.length_cons, ih]
      omega

theorem hmacHex_length (payload secret : List Nat) :
    (hmacHex payload secret).length = 64 := by
  show (toHexChars (hmacSha256 secret payload)).length = 64
  rw [toHexChars_length]
  simp [hmacSha256, sha256_length]

/-- Verification succeeds on the digest the verifier itself computes. -/
theorem verify_self (payload secret : List Nat) :
    verify_signature payload (some (hmacHex payload secret)) secret = true := by
  show constant_time_compare (hmacHex payload secret) (hmacHex payload secret)
        = true
  exact (constant_time_compare_iff _ _).mpr rfl

/-- C1: for every payload `P` and secret `S`, computing the HMAC-SHA256 hex
digest of `P` keyed by `S` and passing it as the signature header makes
verification succeed: `verify(P, hmac(P,S), S) = true`. -/
theorem verify_accepts_correct_hmac (payload secret : List Nat) :
    verify_signature payload (some (hmacHex payload secret)) secret = true :=
  verify_self payload secret

/-- C2: `verify_signature` is a total boolean function (it never throws);
it returns `true` exactly when the header carries the computed digest, so an
absent, empty, malformed, or mismatching signature header yields `false`. -/
theorem verify_total_and_false_on_mismatch (payload : List Nat)
    (signatureHeader : Option String) (secret : List Nat) :
    (verify_signature payload signatureHeader secret = true ↔
      signatureHeader = some (hmacHex payload secret)) ∧
    verify_signature payload none secret = false ∧
    verify_signature payload (some "") secret = false := by
  refine ⟨⟨?_, ?_⟩, rfl, ?_⟩
  · intro hv
    cases signatureHeader with
    | none => simp [verify_signature] at hv
    | some sig =>
        have : hmacHex payload secret = sig :=
          (constant_time_compare_iff _ _).mp hv
        rw [this]
  · rintro rfl
    exact verify_self payload secret
  · cases hc : constant_time_compare (hmacHex payload secret) "" with
    | false => exact hc
    | true =>
        exfalso
        have hdig := (constant_time_compare_iff _ _).mp hc
        have hl := congrArg String.length hdig
        rw [hmacHex_length] at hl
        simp at hl

/-- C7: the comparison `verify_signature` performs between the computed
digest and a supplied signature header runs in a number of scan steps that
depends only on the header's length, never on the position of a first
differing byte: two headers of equal length cost the same. -/
theorem verify_comparison_constant_time (payload secret : List Nat)
    (sig sig' : String) (hl : sig.length = sig'.length) :
    ctSteps (hmacHex payload secret) sig
      = ctSteps (hmacHex payload secret) sig' := by
  show (ctScan (strBytes (hmacHex payload secret)) (strBytes sig)).2
      = (ctScan (strBytes (hmacHex payload secret)) (strBytes sig')).2
  rw [ctScan_snd, ctScan_snd]
  have h1 : (strBytes sig).length = sig.length := by simp [strBytes]
  have h2 : (strBytes sig').length = sig'.length := by simp [strBytes]
  rw [h1, h2, hl]

/-- Witness for C7 at concrete inputs of equal length. -/
theorem verify_comparison_constant_time_witness :
    ("aaaa" : String).length = ("zzzz" : String).length ∧
    ctSteps (hmacHex (strBytes "body") sampleSecret) "aaaa"
      = ctSteps (hmacHex (strBytes "body") sampleSecret) "zzzz" :=
  ⟨rfl, verify_comparison_constant_time (strBytes "body") sampleSecret
    "aaaa" "zzzz" rfl⟩

/-! ## Gateway client -/

/-- C9: constructing `SBTCGateway` with only an `api_key` uses the defaults
`base_url = "https://api.sbtc-gateway.com"`, `timeout = 30`, `retries = 3`,
and for every choice of constructor arguments the identical four values are
stored on the client and passed unchanged to both sub-clients. -/
theorem create_stores_and_wires_config (api_key base_url : String)
    (timeout retries : Nat) :
    (SBTCGateway.create api_key base_url timeout retries).api_key = api_key ∧
    (SBTCGateway.create api_key base_url timeout retries).base_url = base_url ∧
    (SBTCGateway.create api_key base_url timeout retries).timeout = timeout ∧
    (SBTCGateway.create api_key base_url timeout retries).retries = retries ∧
    (SBTCGateway.create api_key base_url timeout retries).payments
      = ⟨api_key, base_url, timeout, retries⟩ ∧
    (SBTCGateway.create api_key base_url timeout retries).merchant
      = ⟨api_key, base_url, timeout, retries⟩ ∧
    SBTCGateway.ofApiKey api_key
      = SBTCGateway.create api_key "https://api.sbtc-gateway.com" 30 3 :=
  ⟨rfl, rfl, rfl, rfl, rfl, rfl, rfl⟩

/-- Any two values of the stateless webhook utility bundle are equal. -/
theorem webhookUtils_subsingleton (u v : WebhookUtils) : u = v := rfl

/-- C10: every pair of clients, whatever their constructor arguments, share
the same stateless `webhooks` utility, and signature verification and event
parsing reached through a client depend only on the per-call arguments,
never on the client's configuration. -/
theorem webhooks_stateless_and_shared (c c' : SBTCGateway) :
    c.webhooks = c'.webhooks ∧
    (∀ payload signatureHeader secret,
      c.webhooks.verify_signature payload signatureHeader secret
        = c'.webhooks.verify_signature payload signatureHeader secret) ∧
    (∀ j, c.webhooks.parse_event j = c'.webhooks.parse_event j) :=
  ⟨webhookUtils_subsingleton _ _, fun _ _ _ => rfl, fun _ => rfl⟩

/-! ## HTTP transport retry policy -/

theorem runRetry_spec (f : Nat → Outcome) :
    ∀ (rem i : Nat),
      i + 1 ≤ (runRetry f i rem).2 ∧
      (runRetry f i rem).2 ≤ i + rem + 1 ∧
      (∀ j, i ≤ j → j + 1 < (runRetry f i rem).2 → isRetryable (f j) = true) ∧
      (runRetry f i rem).1 = outcomeResult (f ((runRetry f i rem).2 - 1)) ∧
      (isRetryable (f i) = false → (runRetry f i rem).2 = i + 1) := by
  intro rem
  induction rem with
  | zero =>
      intro i
      refine ⟨Nat.le_refl _, Nat.le_refl _, ?_, rfl, fun _ => rfl⟩
      intro j hij hlt
      simp only [runRetry] at hlt
      omega
  | succ rem ih =>
      intro i
      by_cases hr : isRetryable (f i)
      · have hstep : runRetry f i (rem + 1) = runRetry f (i + 1) rem := by
          simp [runRetry, hr]
        obtain ⟨h1, h2, h3, h4, _⟩ := ih (i + 1)
        rw [hstep]
        refine ⟨by omega, by omega, ?_, h4, ?_⟩
        · intro j hij hlt
          rcases Nat.eq_or_lt_of_le hij with rfl | hgt
          · exact hr
          · exact h3 j hgt hlt
        · intro hfalse
          rw [hr] at hfalse
          exact absurd hfalse (by simp)
      · have hstep : runRetry f i (rem + 1)
            = (outcomeResult (f i), i + 1) := by
          simp [runRetry, hr]
        rw [hstep]
        refine ⟨Nat.le_refl _, by omega, ?_, rfl, fun _ => rfl⟩
        intro j hij hlt
        simp only at hlt
        omega

/-- C8: the transport retries only outcomes that are transient (timeouts
and 5xx), makes at most `retries + 1` attempts, never retries a 4xx
response, and propagates the final attempt's outcome — in particular its
error — unchanged to the caller. -/
theorem executeT_retry_policy (retries : Nat) (f : Nat → Outcome) :
    1 ≤ (executeT retries f).2 ∧
    (executeT retries f).2 ≤ retries + 1 ∧
    (∀ j, j + 1 < (executeT retries f).2 → isRetryable (f j) = true) ∧
    (executeT retries f).1
      = outcomeResult (f ((executeT retries f).2 - 1)) ∧
    (∀ status err, f 0 = .httpError status err → 400 ≤ status →
      status < 500 → (executeT retries f).2 = 1) := by
  obtain ⟨h1, h2, h3, h4, h5⟩ := runRetry_spec f retries 0
  refine ⟨h1, by simpa using h2, ?_, h4, ?_⟩
  · intro j hlt
    exact h3 j (Nat.zero_le _) hlt
  · intro status err hf h400 h500
    apply h5
    rw [hf]
    simp only [isRetryable]
    simp
    omega

/-- Witness for C8: a first-attempt 404 is not retried and its error is
returned unchanged, and a run of pure timeouts stops after
`retries + 1` attempts with the last outcome propagated. -/
theorem executeT_retry_policy_witness :
    (executeT 3 attempts404).2 = 1 ∧
    (executeT 3 attemptsTimeout).1
      = outcomeResult (attemptsTimeout ((executeT 3 attemptsTimeout).2 - 1)) :=
  ⟨(executeT_retry_policy 3 attempts404).2.2.2.2 404
      ⟨.apiError, "Not found", none, none⟩ rfl (by decide) (by decide),
   (executeT_retry_policy 3 attemptsTimeout).2.2.2.1⟩

/-! ## Webhook dispatch -/

theorem parse_event_bytes_error {payload : List Nat} {e : SDKError}
    (h : parse_event_bytes payload = .error e) :
    e = mkMalformedPayloadError := by
  unfold parse_event_bytes at h
  split at h
  · simp only [Except.error.injEq] at h
    exact h.symm
  · unfold parse_event at h
    split at h
    · exact absurd h (by simp)
    · simp only [Except.error.injEq] at h
      exact h.symm

/-- C3: the composed webhook handler fails with `InvalidSignatureError`
whenever verification fails, regardless of the body; when verification
succeeds and the body is malformed it fails with `MalformedPayloadError`;
and the two error kinds are distinct members of the SDK error taxonomy. -/
theorem handle_distinguishes_failures (payload : List Nat)
    (signatureHeader : Option String) (secret : List Nat) :
    (verify_signature payload signatureHeader secret = false →
      handle payload signatureHeader secret = .error mkInvalidSignatureError) ∧
    (∀ e, verify_signature payload signatureHeader secret = true →
      parse_event_bytes payload = .error e →
      handle payload signatureHeader secret
        = .error mkMalformedPayloadError) ∧
    mkInvalidSignatureError.kind ≠ mkMalformedPayloadError.kind := by
  refine ⟨?_, ?_, by decide⟩
  · intro hv
    simp [handle, hv]
  · intro e hv hp
    have he := parse_event_bytes_error hp
    rw [he] at hp
    simp [handle, hv, hp]

/-- Witness for C3: with no signature header the handler reports an invalid
signature even though the body is also malformed; with the correct header
on a malformed body it reports a malformed payload. -/
theorem handle_distinguishes_failures_witness :
    verify_signature badBody none sampleSecret = false ∧
    handle badBody none sampleSecret = .error mkInvalidSignatureError ∧
    verify_signature badBody (some (hmacHex badBody sampleSecret))
      sampleSecret = true ∧
    handle badBody (some (hmacHex badBody sampleSecret)) sampleSecret
      = .error mkMalformedPayloadError := by
  refine ⟨rfl,
    (handle_distinguishes_failures badBody none sampleSecret).1 rfl,
    verify_self badBody sampleSecret, ?_⟩
  exact (handle_distinguishes_failures badBody
      (some (hmacHex badBody sampleSecret)) sampleSecret).2.1
    mkMalformedPayloadError (verify_self badBody sampleSecret) rfl

/-! ## Field lookup lemmas -/

@[simp]
theorem lookupField_append (l1 l2 : List (String × Json)) (key : String) :
    lookupField (l1 ++ l2) key
      = match lookupField l1 key with
        | some v => some v
        | none => lookupField l2 key := by
  induction l1 with
  | nil => simp [lookupField]
  | cons kv l ih =>
      obtain ⟨k, v⟩ := kv
      by_cases hk : k = key
      · simp [lookupField, hk]
      · simp [lookupField, hk, ih]

@[simp]
theorem lookupField_optFields (k key : String) (v : Option Json) :
    lookupField (optFields k v) key = if k = key then v else none := by
  cases v with
  | none => simp [optFields, lookupField]
  | some x => by_cases hk : k = key <;> simp [optFields, lookupField, hk]

/-! ## Getter soundness -/

theorem getNonneg_sound {j : Json} {key : String} {n : Int}
    (h : getNonneg j key = some n) : 0 ≤ n := by
  unfold getNonneg at h
  split at h
  · split at h
    · simp only [Option.some.injEq] at h
      omega
    · exact absurd h (by simp)
  · exact absurd h (by simp)

theorem getOptNonneg_sound {j : Json} {key : String} {c : Int}
    (h : getOptNonneg j key = some (some c)) : 0 ≤ c := by
  unfold getOptNonneg at h
  split at h
  · exact absurd h (by simp)
  · exact absurd h (by simp)
  · split at h
    · simp only [Option.some.injEq] at h
      omega
    · exact absurd h (by simp)
  · exact absurd h (by simp)

theorem getTime_sound {j : Json} {key : String} {tv : TimeVal}
    (h : getTime j key = some tv) :
    jLookup j key = some (timeValJson tv) := by
  unfold getTime at h
  cases hjl : jLookup j key with
  | none => rw [hjl] at h; exact absurd h (by simp)
  | some v =>
      rw [hjl] at h
      cases v with
      | null => exact absurd h (by simp)
      | bool b => exact absurd h (by simp)
      | num n =>
          simp only [Option.some.injEq] at h
          rw [← h]
          rfl
      | str s =>
          simp only [Option.some.injEq] at h
          rw [← h]
          rfl
      | arr xs => exact absurd h (by simp)
      | obj fs => exact absurd h (by simp)

/-! ## Round-trip sublemmas -/

theorem roundtrip_wallet (w : WalletAddresses) :
    parseWallet (walletJson w) = some w := by
  obtain ⟨b, s⟩ := w
  cases b <;> cases s <;>
    simp [parseWallet, walletJson, getOptStr, jLookup, lookupField, optFields]

theorem roundtrip_customer (c : PaymentCustomer) :
    parseCustomer (customerJson c) = some c := by
  obtain ⟨e, n, w⟩ := c
  cases e <;> cases n <;> cases w <;>
    simp [parseCustomer, customerJson, getOptStr, jLookup, lookupField,
      optFields]

theorem roundtrip_tevent (e : PaymentEvent)
    (h : e.wellFormed = true) :
    parseTimelineEvent (timelineEventJson e) = some e := by
  obtain ⟨st, ts, th, cf⟩ := e
  simp only [PaymentEvent.wellFormed, nonnegOpt] at h
  cases th <;> cases cf <;>
    simp_all [parseTimelineEvent, timelineEventJson, getStr, getOptStr,
      getOptNonneg, jLookup, lookupField, optFields]

theorem roundtrip_timeline (es : List PaymentEvent)
    (h : es.all PaymentEvent.wellFormed = true) :
    parseTimeline (es.map timelineEventJson) = some es := by
  induction es with
  | nil => rfl
  | cons e es ih =>
      simp only [List.all_cons, Bool.and_eq_true] at h
      simp [parseTimeline, roundtrip_tevent e h.1, ih h.2]

theorem paymentJson_getStr_id (p : Payment) :
    getStr (paymentJson p) "id" = some p.id := by
  simp [getStr, paymentJson, jLookup, lookupField]

theorem paymentJson_getNonneg_amount (p : Payment) (h : 0 ≤ p.amount) :
    getNonneg (paymentJson p) "amount" = some p.amount := by
  simp [getNonneg, paymentJson, jLookup, lookupField, h]

theorem paymentJson_getStr_currency (p : Payment) :
    getStr (paymentJson p) "currency" = some p.currency := by
  simp [getStr, paymentJson, jLookup, lookupField]

theorem paymentJson_getStr_status (p : Payment) :
    getStr (paymentJson p) "status" = some p.status := by
  simp [getStr, paymentJson, jLookup, lookupField]

theorem paymentJson_getStr_description (p : Payment) :
    getStr (paymentJson p) "description" = some p.description := by
  simp [getStr, paymentJson, jLookup, lookupField]

theorem paymentJson_getStr_payment_url (p : Payment) :
    getStr (paymentJson p) "payment_url" = some p.payment_url := by
  simp [getStr, paymentJson, jLookup, lookupField]

theorem paymentJson_getStr_qr_code (p : Payment) :
    getStr (paymentJson p) "qr_code" = some p.qr_code := by
  simp [getStr, paymentJson, jLookup, lookupField]

theorem paymentJson_lookup_wallet (p : Payment) :
    jLookup (paymentJson p) "wallet_addresses"
      = some (walletJson p.wallet_addresses) := by
  simp [paymentJson, jLookup, lookupField]

theorem paymentJson_getTime_expires (p : Payment) :
    getTime (paymentJson p) "expires_at" = some p.expires_at := by
  have hl : jLookup (paymentJson p) "expires_at"
      = some (timeValJson p.expires_at) := by
    simp [paymentJson, jLookup, lookupField]
  cases hv : p.expires_at <;> rw [hv] at hl <;> simp [getTime, hl, timeValJson]

theorem paymentJson_getTime_created (p : Payment) :
    getTime (paymentJson p) "created_at" = some p.created_at := by
  have hl : jLookup (paymentJson p) "created_at"
      = some (timeValJson p.created_at) := by
    simp [paymentJson, jLookup, lookupField]
  cases hv : p.created_at <;> rw [hv] at hl <;> simp [getTime, hl, timeValJson]

theorem paymentJson_getTime_updated (p : Payment) :
    getTime (paymentJson p) "updated_at" = some p.updated_at := by
  have hl : jLookup (paymentJson p) "updated_at"
      = some (timeValJson p.updated_at) := by
    simp [paymentJson, jLookup, lookupField]
  cases hv : p.updated_at <;> rw [hv] at hl <;> simp [getTime, hl, timeValJson]

theorem paymentJson_customer (p : Payment) :
    getOptCustomer (paymentJson p) "customer" = some p.customer := by
  cases hc : p.customer with
  | none =>
      simp [getOptCustomer, paymentJson, jLookup, lookupField, hc]
  | some c =>
      obtain ⟨ce, cn, cw⟩ := c
      cases ce <;> cases cn <;> cases cw <;>
        simp [getOptCustomer, paymentJson, jLookup, lookupField, hc,
          customerJson, parseCustomer, getOptStr, optFields]

theorem paymentJson_confirmations (p : Payment)
    (h : nonnegOpt p.confirmations = true) :
    getOptNonneg (paymentJson p) "confirmations" = some p.confirmations := by
  cases hc : p.confirmations with
  | none => simp [getOptNonneg, paymentJson, jLookup, lookupField, hc]
  | some n =>
      rw [hc] at h
      simp only [nonnegOpt, decide_eq_true_eq] at h
      simp [getOptNonneg, paymentJson, jLookup, lookupField, hc, h]

theorem paymentJson_transaction_hash (p : Payment) :
    getOptStr (paymentJson p) "transaction_hash"
      = some p.transaction_hash := by
  cases hc : p.transaction_hash <;>
    simp [getOptStr, paymentJson, jLookup, lookupField, hc]

theorem paymentJson_metadata (p : Payment) :
    getOptMeta (paymentJson p) "metadata" = some p.metadata := by
  cases hc : p.metadata <;>
    simp [getOptMeta, paymentJson, jLookup, lookupField, hc]

theorem paymentJson_timeline (p : Payment)
    (h : (match p.timeline with
          | none => true
          | some es => es.all PaymentEvent.wellFormed) = true) :
    getOptTimeline (paymentJson p) "timeline" = some p.timeline := by
  cases hc : p.timeline with
  | none => simp [getOptTimeline, paymentJson, jLookup, lookupField, hc]
  | some es =>
      rw [hc] at h
      simp [getOptTimeline, paymentJson, jLookup, lookupField, hc,
        roundtrip_timeline es h]

/-- Parsing inverts serialization on any payment satisfying the numeric
invariants. -/
theorem roundtrip_payment (p : Payment) (h : p.wellFormed = true) :
    parsePayment (paymentJson p) = some p := by
  unfold Payment.wellFormed at h
  simp only [Bool.and_eq_true, decide_eq_true_eq] at h
  obtain ⟨⟨hA, hC⟩, hT⟩ := h
  simp [parsePayment, paymentJson_getStr_id, paymentJson_getNonneg_amount p hA,
    paymentJson_getStr_currency, paymentJson_getStr_status,
    paymentJson_getStr_description, paymentJson_getStr_payment_url,
    paymentJson_getStr_qr_code, paymentJson_lookup_wallet, roundtrip_wallet,
    paymentJson_getTime_expires, paymentJson_getTime_created,
    paymentJson_getTime_updated, paymentJson_customer,
    paymentJson_confirmations p hC, paymentJson_transaction_hash,
    paymentJson_metadata, paymentJson_timeline p hT]

theorem eventJson_getStr_id (e : WebhookEvent) :
    getStr (eventJson e) "id" = some e.id := by
  simp [getStr, eventJson, jLookup, lookupField]

theorem eventJson_getStr_type (e : WebhookEvent) :
    getStr (eventJson e) "type" = some e.type := by
  simp [getStr, eventJson, jLookup, lookupField]

theorem eventJson_getInt_created (e : WebhookEvent) :
    getInt (eventJson e) "created" = some e.created := by
  simp [getInt, eventJson, jLookup, lookupField]

theorem eventJson_lookup_data (e : WebhookEvent) :
    jLookup (eventJson e) "data"
      = some (.obj [("payment", paymentJson e.data.payment)]) := by
  simp [eventJson, jLookup, lookupField]

theorem eventJson_livemode (e : WebhookEvent) :
    getBoolD (eventJson e) "livemode" false = e.livemode := by
  simp [getBoolD, eventJson, jLookup, lookupField]

/-- C5: `parse_event` is total on structured payloads (it returns a value,
never raises), and parsing inverts payload construction: serialising any
webhook event whose payment satisfies the numeric invariants and parsing
the result yields the original event. -/
theorem parse_event_roundtrip (e : WebhookEvent)
    (h : e.data.payment.wellFormed = true) :
    parse_event (eventJson e) = .ok e := by
  have hp : parsePayment (paymentJson e.data.payment)
      = some e.data.payment := roundtrip_payment _ h
  have hpay : jLookup (.obj [("payment", paymentJson e.data.payment)])
      "payment" = some (paymentJson e.data.payment) := by
    simp [jLookup, lookupField]
  simp [parse_event, parseEventOpt, eventJson_getStr_id, eventJson_getStr_type,
    eventJson_getInt_created, eventJson_lookup_data, eventJson_livemode,
    hpay, hp]

/-- Witness for C5 at the §8 scenario event. -/
theorem parse_event_roundtrip_witness :
    sampleEvent.data.payment.wellFormed = true ∧
    parse_event (eventJson sampleEvent) = .ok sampleEvent :=
  ⟨by decide, parse_event_roundtrip sampleEvent (by decide)⟩

/-- C4: any payload carrying the required fields (`id`, `type`, `created`,
`data.payment`) parses successfully even when its `type` string is outside
the five enumerated event types; the resulting event retains the raw string
and classifies as the typed `unknown` fallback variant. -/
theorem parse_event_unknown_type (j dj pj : Json) (i ty : String) (c : Int)
    (p : Payment)
    (hid : jLookup j "id" = some (.str i))
    (hty : jLookup j "type" = some (.str ty))
    (hcr : jLookup j "created" = some (.num c))
    (hd : jLookup j "data" = some dj)
    (hpj : jLookup dj "payment" = some pj)
    (hpp : parsePayment pj = some p)
    (hunk : ty ∉ knownEventTypes) :
    parse_event j = .ok ⟨i, ty, c, ⟨p⟩, getBoolD j "livemode" false⟩ ∧
    classifyEventType ty = .unknown ty := by
  constructor
  · have h1 : getStr j "id" = some i := by simp [getStr, hid]
    have h2 : getStr j "type" = some ty := by simp [getStr, hty]
    have h3 : getInt j "created" = some c := by simp [getInt, hcr]
    simp [parse_event, parseEventOpt, h1, h2, h3, hd, hpj, hpp]
  · simp only [knownEventTypes, List.mem_cons, List.not_mem_nil, or_false]
      at hunk
    push_neg at hunk
    obtain ⟨h1, h2, h3, h4, h5⟩ := hunk
    simp [classifyEventType, h1, h2, h3, h4, h5]

/-- Witness for C4 at a concrete payload with `type = "payment.refunded"`. -/
theorem parse_event_unknown_type_witness :
    parse_event (eventJson unknownEvent)
      = .ok ⟨"evt_2", "payment.refunded", 1700000001, ⟨samplePayment⟩,
             getBoolD (eventJson unknownEvent) "livemode" false⟩ ∧
    classifyEventType "payment.refunded" = .unknown "payment.refunded" :=
  parse_event_unknown_type (eventJson unknownEvent)
    (.obj [("payment", paymentJson samplePayment)])
    (paymentJson samplePayment) "evt_2" "payment.refunded" 1700000001
    samplePayment rfl rfl rfl rfl rfl (by rfl) (by decide)

/-- C6: every payment a successful parse produces has its numeric fields
validated as non-negative integers (`amount ≥ 0`, and `confirmations ≥ 0`
when present), and its timestamp fields hold exactly the values the payload
supplied, string or integer, unreformatted. -/
theorem bind_some_inv {α β : Type} {x : Option α} {f : α → Option β} {b : β}
    (h : x.bind f = some b) : ∃ a, x = some a ∧ f a = some b := by
  cases x with
  | none => exact absurd h (by simp)
  | some a => exact ⟨a, rfl, h⟩

theorem map_some_inv {α β : Type} {x : Option α} {f : α → β} {b : β}
    (h : x.map f = some b) : ∃ a, x = some a ∧ f a = b := by
  cases x with
  | none => exact absurd h (by simp)
  | some a =>
      simp only [Option.map_some', Option.some.injEq] at h
      exact ⟨a, rfl, h⟩

theorem parsePayment_validates_and_retains (j : Json) (p : Payment)
    (h : parsePayment j = some p) :
    0 ≤ p.amount ∧
    (∀ c, p.confirmations = some c → 0 ≤ c) ∧
    jLookup j "expires_at" = some (timeValJson p.expires_at) ∧
    jLookup j "created_at" = some (timeValJson p.created_at) ∧
    jLookup j "updated_at" = some (timeValJson p.updated_at) := by
  unfold parsePayment at h
  obtain ⟨i, hi, h⟩ := bind_some_inv h
  obtain ⟨amt, hamt, h⟩ := bind_some_inv h
  obtain ⟨cur, hcur, h⟩ := bind_some_inv h
  obtain ⟨st, hst, h⟩ := bind_some_inv h
  obtain ⟨de, hde, h⟩ := bind_some_inv h
  obtain ⟨pu, hpu, h⟩ := bind_some_inv h
  obtain ⟨qr, hqr, h⟩ := bind_some_inv h
  obtain ⟨wj, hwj, h⟩ := bind_some_inv h
  obtain ⟨w, hw, h⟩ := bind_some_inv h
  obtain ⟨ea, hea, h⟩ := bind_some_inv h
  obtain ⟨ca, hca, h⟩ := bind_some_inv h
  obtain ⟨ua, hua, h⟩ := bind_some_inv h
  obtain ⟨cu, hcu, h⟩ := bind_some_inv h
  obtain ⟨cf, hcf, h⟩ := bind_some_inv h
  obtain ⟨th, hth, h⟩ := bind_some_inv h
  obtain ⟨md, hmd, h⟩ := bind_some_inv h
  obtain ⟨tl, htl, hmk⟩ := map_some_inv h
  subst hmk
  refine ⟨getNonneg_sound hamt, ?_, getTime_sound hea, getTime_sound hca,
    getTime_sound hua⟩
  intro c hc
  have hc' : cf = some c := hc
  rw [hc'] at hcf
  exact getOptNonneg_sound hcf

/-- Witness for C6 at a concrete parsed payment. -/
theorem parsePayment_validates_and_retains_witness :
    0 ≤ samplePayment.amount ∧
    jLookup (paymentJson samplePayment) "created_at"
      = some (timeValJson samplePayment.created_at) :=
  ⟨(parsePayment_validates_and_retains (paymentJson samplePayment)
      samplePayment (by rfl)).1,
   (parsePayment_validates_and_retains (paymentJson samplePayment)
      samplePayment (by rfl)).2.2.2.1⟩

end StacksPay
